import Mathlib

set_option maxRecDepth 100000

/-!
Verification of the job-tracker extraction pipeline
(`backend/nodes.py`, `backend/pipeline.py`, `backend/models.py`).

The Python pipeline is shallowly embedded: each LangGraph node becomes a
Lean function from the graph state to the graph state (a node's returned
update dict is merged into the state, which the embedding inlines as a
record update of exactly the returned keys).  External collaborators
(HTTP client, trafilatura extraction, Unicode NFKC table, the LLM, the
fingerprint store) are capability parameters; everything the repository
itself computes — routing, truthiness tests, text cleaning, validation
defaults, the SHA-256 fingerprint — is implemented concretely.

Python string semantics are modelled over Lean `String` viewed as its
list of code points (`String.data`), matching Python's code-point
indexing: `len` is `(·.data.length)`, slicing is `List.take`,
`str.strip()` strips the ASCII whitespace class, `str.lower()` is ASCII
lowercasing (all inputs exercised here are ASCII).  A Python value that
may be `None` is an `Option`; Python truthiness of an optional string
(`None` and `""` falsy) is `otruthy`.
-/

/-- ASCII lowercase of one character, as Python `str.lower` acts on ASCII. -/
def asciiLowerChar (c : Char) : Char :=
  if c.toNat ≥ 65 ∧ c.toNat ≤ 90 then Char.ofNat (c.toNat + 32) else c

/-- ASCII lowercase of a string (`str.lower()` restricted to ASCII). -/
def asciiLower (s : String) : String :=
  ⟨s.data.map asciiLowerChar⟩

/-- The whitespace class stripped by Python `str.strip()` (ASCII part). -/
def isPyWs (c : Char) : Bool :=
  c = ' ' || c = '\t' || c = '\n' || c = '\r' || c = Char.ofNat 11 || c = Char.ofNat 12

/-- Python `str.strip()`: remove leading and trailing whitespace. -/
def pyStrip (s : String) : String :=
  ⟨((s.data.dropWhile isPyWs).reverse.dropWhile isPyWs).reverse⟩

/-- Python `len` on a string: number of code points. -/
def pyLen (s : String) : Nat := s.data.length

/-- Python slicing `s[:n]`: the first `n` code points. -/
def pySlice (s : String) (n : Nat) : String := ⟨s.data.take n⟩

/-- Python `sep.join(xs)`. -/
def pyJoin (sep : String) : List String → String
  | [] => ""
  | [x] => x
  | x :: y :: xs => x ++ sep ++ pyJoin sep (y :: xs)

/-- Python truthiness of an optional string: `None` and `""` are falsy. -/
def otruthy : Option String → Bool
  | none => false
  | some s => s ≠ ""

/-!
## SHA-256

`hashlib.sha256(fingerprint_input.encode()).hexdigest()` from
`dedupe_check` is implemented concretely: UTF-8 encoding of the input,
then FIPS 180-4 SHA-256 over the byte list, then the lowercase hex
digest.  Words are `Nat` reduced modulo `2 ^ 32`.
-/

/-- `2 ^ 32`, the word modulus of SHA-256. -/
def M32 : Nat := 4294967296

/-- Right rotation of a 32-bit word (represented as a `Nat` below `M32`). -/
def rotr32 (n x : Nat) : Nat :=
  (x / 2 ^ n + (x % 2 ^ n) * 2 ^ (32 - n)) % M32

/-- Bitwise complement of a 32-bit word. -/
def not32 (x : Nat) : Nat := x ^^^ 4294967295

/-- UTF-8 encoding of one code point (as Python `str.encode()`). -/
def utf8Bytes (c : Nat) : List Nat :=
  if c < 128 then [c]
  else if c < 2048 then [192 + c / 64, 128 + c % 64]
  else if c < 65536 then [224 + c / 4096, 128 + (c / 64) % 64, 128 + c % 64]
  else [240 + c / 262144, 128 + (c / 4096) % 64, 128 + (c / 64) % 64, 128 + c % 64]

/-- UTF-8 bytes of a string. -/
def strBytes (s : String) : List Nat :=
  s.data.flatMap (fun c => utf8Bytes c.toNat)

/-- The eight big-endian bytes of a 64-bit length field. -/
def lenBytes64 (n : Nat) : List Nat :=
  [n / 2 ^ 56 % 256, n / 2 ^ 48 % 256, n / 2 ^ 40 % 256, n / 2 ^ 32 % 256,
   n / 2 ^ 24 % 256, n / 2 ^ 16 % 256, n / 2 ^ 8 % 256, n % 256]

/-- SHA-256 message padding: append `0x80`, zeros to 56 mod 64, and the
bit length as eight big-endian bytes. -/
def sha256Pad (msg : List Nat) : List Nat :=
  msg ++ [128] ++ List.replicate ((119 - msg.length % 64) % 64) 0 ++
    lenBytes64 (msg.length * 8 % 2 ^ 64)

/-- Group a byte list into big-endian 32-bit words. -/
def bytesToWords : List Nat → List Nat
  | b0 :: b1 :: b2 :: b3 :: rest =>
      (((b0 * 256 + b1) * 256 + b2) * 256 + b3) :: bytesToWords rest
  | _ => []

/-- The SHA-256 round constants. -/
def K256 : List Nat :=
  [1116352408, 1899447441, 3049323471, 3921009573, 961987163, 1508970993,
   2453635748, 2870763221, 3624381080, 310598401, 607225278, 1426881987,
   1925078388, 2162078206, 2614888103, 3248222580, 3835390401, 4022224774,
   264347078, 604807628, 770255983, 1249150122, 1555081692, 1996064986,
   2554220882, 2821834349, 2952996808, 3210313671, 3336571891, 3584528711,
   113926993, 338241895, 666307205, 773529912, 1294757372, 1396182291,
   1695183700, 1986661051, 2177026350, 2456956037, 2730485921, 2820302411,
   3259730800, 3345764771, 3516065817, 3600352804, 4094571909, 275423344,
   430227734, 506948616, 659060556, 883997877, 958139571, 1322822218,
   1537002063, 1747873779, 1955562222, 2024104815, 2227730452, 2361852424,
   2428436474, 2756734187, 3204031479, 3329325298]

/-- The small sigma-0 message-schedule function. -/
def ssig0 (x : Nat) : Nat := rotr32 7 x ^^^ rotr32 18 x ^^^ x / 2 ^ 3

/-- The small sigma-1 message-schedule function. -/
def ssig1 (x : Nat) : Nat := rotr32 17 x ^^^ rotr32 19 x ^^^ x / 2 ^ 10

/-- The big sigma-0 compression function. -/
def bsig0 (x : Nat) : Nat := rotr32 2 x ^^^ rotr32 13 x ^^^ rotr32 22 x

/-- The big sigma-1 compression function. -/
def bsig1 (x : Nat) : Nat := rotr32 6 x ^^^ rotr32 11 x ^^^ rotr32 25 x

/-- Extend the message schedule; `acc` holds the words produced so far in
reverse order, `n` counts the remaining extension steps. -/
def schedExtend : Nat → List Nat → List Nat
  | 0, acc => acc.reverse
  | n + 1, acc =>
      let g := fun i => acc.getD i 0
      schedExtend n (((ssig1 (g 1) + g 6 + ssig0 (g 14) + g 15) % M32) :: acc)

/-- The 64-word message schedule of one block. -/
def sha256Schedule (w16 : List Nat) : List Nat :=
  schedExtend 48 w16.reverse

/-- The eight working variables of the compression loop. -/
structure Hash8 where
  a : Nat
  b : Nat
  c : Nat
  d : Nat
  e : Nat
  f : Nat
  g : Nat
  h : Nat
deriving Repr, DecidableEq

/-- One compression round at constant `k` and schedule word `w`. -/
def sha256Round (s : Hash8) (k w : Nat) : Hash8 :=
  let t1 := (s.h + bsig1 s.e + ((s.e &&& s.f) ^^^ (not32 s.e &&& s.g)) + k + w) % M32
  let t2 := (bsig0 s.a + ((s.a &&& s.b) ^^^ (s.a &&& s.c) ^^^ (s.b &&& s.c))) % M32
  ⟨(t1 + t2) % M32, s.a, s.b, s.c, (s.d + t1) % M32, s.e, s.f, s.g⟩

/-- Fold the 64 rounds over the (constant, schedule-word) pairs. -/
def sha256Rounds : List (Nat × Nat) → Hash8 → Hash8
  | [], s => s
  | (k, w) :: rest, s => sha256Rounds rest (sha256Round s k w)

/-- Compress one 64-byte block into the running hash value. -/
def sha256Compress (s : Hash8) (block : List Nat) : Hash8 :=
  let w := sha256Schedule (bytesToWords block)
  let t := sha256Rounds (K256.zip w) s
  ⟨(s.a + t.a) % M32, (s.b + t.b) % M32, (s.c + t.c) % M32, (s.d + t.d) % M32,
   (s.e + t.e) % M32, (s.f + t.f) % M32, (s.g + t.g) % M32, (s.h + t.h) % M32⟩

/-- Process the padded message block by block; `fuel` is the block count. -/
def sha256Blocks : Nat → List Nat → Hash8 → Hash8
  | 0, _, s => s
  | n + 1, bytes, s => sha256Blocks n (bytes.drop 64) (sha256Compress s (bytes.take 64))

/-- The SHA-256 initial hash value. -/
def sha256Init : Hash8 :=
  ⟨1779033703, 3144134277, 1013904242, 2773480762, 1359893119, 2600822924, 528734635, 1541459225⟩

/-- One lowercase hex digit. -/
def hexDigit (n : Nat) : Char :=
  if n < 10 then Char.ofNat (48 + n) else Char.ofNat (87 + n)

/-- Lowercase hex rendering of a word on `digits` hex digits, big-endian. -/
def natToHex : Nat → Nat → List Char
  | 0, _ => []
  | d + 1, n => hexDigit (n / 16 ^ d % 16) :: natToHex d n

/-- SHA-256 digest of a byte list, as a lowercase 64-character hex string. -/
def sha256hexBytes (msg : List Nat) : String :=
  let padded := sha256Pad msg
  let s := sha256Blocks (padded.length / 64) padded sha256Init
  ⟨natToHex 8 s.a ++ natToHex 8 s.b ++ natToHex 8 s.c ++ natToHex 8 s.d ++
   natToHex 8 s.e ++ natToHex 8 s.f ++ natToHex 8 s.g ++ natToHex 8 s.h⟩

/-- `hashlib.sha256(s.encode()).hexdigest()`. -/
def sha256hex (s : String) : String :=
  sha256hexBytes (strBytes s)

/-!
## Data model (`backend/models.py`)
-/

/-- `InputMode(str, Enum)` with members `URL = "url"`, `TEXT = "text"`. -/
inductive InputMode
  | url
  | text
deriving Repr, DecidableEq

/-- The `.value` payload of an `InputMode` member. -/
def InputMode.value : InputMode → String
  | .url => "url"
  | .text => "text"

/-- The member name, as it appears in `str(InputMode.URL)`. -/
def InputMode.memberName : InputMode → String
  | .url => "URL"
  | .text => "TEXT"

/-- A runtime value of the `input_mode` state key.  The routing code
tolerates heterogeneous representations (the enum member, a raw string,
`None`), so the embedding keeps that heterogeneity. -/
inductive ModeVal
  | enum (m : InputMode)
  | str (s : String)
  | noneV
deriving Repr, DecidableEq

/-- Python `str(input_mode)`: a `str`-mixin enum member prints as
`InputMode.URL` / `InputMode.TEXT`; `str(None)` is `None`; a raw string
is itself. -/
def ModeVal.pyStr : ModeVal → String
  | .enum m => "InputMode." ++ m.memberName
  | .str s => s
  | .noneV => "None"

/-- Python `input_mode == InputMode.URL`.  A `str`-mixin enum member
compares equal to its value string, so `"url" == InputMode.URL`. -/
def ModeVal.eqUrlMember : ModeVal → Bool
  | .enum m => m = .url
  | .str s => s = "url"
  | .noneV => false

/-- Python `input_mode == "url"` (same relation, by symmetry of the
`str`-mixin comparison). -/
def ModeVal.eqUrlString : ModeVal → Bool
  | .enum m => m.value = "url"
  | .str s => s = "url"
  | .noneV => false

/-- Python `hasattr(input_mode, "value")`: only the enum member has it. -/
def ModeVal.hasValueAttr : ModeVal → Bool
  | .enum _ => true
  | _ => false

/-- The `.value` attribute where it exists (`""` is never consulted
without `hasValueAttr`). -/
def ModeVal.valueAttr : ModeVal → String
  | .enum m => m.value
  | _ => ""

/-- `FetchError` (pydantic): `code: Optional[int] = None`,
`message: str`, `recoverable: bool = True`. -/
structure FetchError where
  code : Option Nat := none
  message : String
  recoverable : Bool := true
deriving Repr, DecidableEq

/-- A runtime value of the `requirements` field.  The pydantic type is
`Optional[List[str]]`, but `normalize_validate` defends against a
non-list value with `isinstance(..., list)`, so the embedding admits a
stray scalar: `scalar s` is a non-list value whose `str()` is `s` and
whose Python truthiness is `s ≠ ""` (the string case). -/
inductive ReqVal
  | noneV
  | list (xs : List String)
  | scalar (s : String)
deriving Repr, DecidableEq

/-- Python truthiness of a `requirements` value: `None`, `[]` and `""`
are falsy. -/
def ReqVal.truthy : ReqVal → Bool
  | .noneV => false
  | .list xs => xs ≠ []
  | .scalar s => s ≠ ""

/-- Python `isinstance(value, list)`. -/
def ReqVal.isList : ReqVal → Bool
  | .list _ => true
  | _ => false

/-- Python `str(value)` of a `requirements` value (only applied to
scalars by the code). -/
def ReqVal.pyStr : ReqVal → String
  | .scalar s => s
  | .noneV => "None"
  | .list _ => ""

/-- `JobApplication` (pydantic): the record produced by structured LLM
output.  `company`, `title`, `description` are required strings; the
rest are optional. -/
structure JobApplication where
  company : String
  title : String
  location : Option String := none
  salary_range : Option String := none
  job_type : Option String := none
  description : String
  requirements : ReqVal := .noneV
  url : Option String := none
  job_id : Option String := none
deriving Repr, DecidableEq

/-- `GraphState` (`backend/pipeline.py`): the LangGraph state dict.
`user_id` mirrors the `state.get("user_id")` read in `dedupe_check`; the
`GraphState` TypedDict declares no such channel and `run_extraction`
never sets it, so in every pipeline run it is `none`. -/
structure GraphState where
  input_mode : ModeVal
  input_url : Option String := none
  input_text : Option String := none
  user_id : Option String := none
  fetched_text : Option String := none
  cleaned_text : Option String := none
  fetch_error : Option FetchError := none
  extracted : Option JobApplication := none
  fingerprint : Option String := none
  is_duplicate : Bool := false
  existing_id : Option Int := none
  error : Option String := none
deriving Repr, DecidableEq

/-- Outcome of `httpx.Client.get`: a response with a final status code
and body text, a `httpx.TimeoutException`, or some other exception with
a message. -/
inductive HttpOutcome
  | ok (status : Nat) (body : String)
  | timeout
  | exn (msg : String)

/-- The external collaborators of the pipeline (§6 of the design):
HTTP fetch, the two trafilatura extraction profiles, the Unicode NFKC
table (`unicodedata.normalize("NFKC", ·)`), the `OPENAI_API_KEY`
environment value, structured LLM inference (an exception message or a
possibly-`None` record), and the user-scoped fingerprint store lookup
`check_fingerprint(user_id, fingerprint)`. -/
structure Caps where
  http : String → HttpOutcome
  extractRecall : String → Option String
  extractFallback : String → Option String
  nfkc : String → String
  apiKey : Option String
  infer : String → Except String (Option JobApplication)
  checkFingerprint : String → String → Option Int

/-!
## Pipeline nodes (`backend/nodes.py`)
-/

/-- The `is_url_mode` disjunction shared by `route_input` and
`should_fetch`:
`input_mode == InputMode.URL or input_mode == "url" or
 str(input_mode).lower() == "url" or
 (hasattr(input_mode, "value") and input_mode.value == "url")`. -/
def isUrlMode (v : ModeVal) : Bool :=
  v.eqUrlMember || v.eqUrlString || (asciiLower v.pyStr == "url") ||
    (v.hasValueAttr && (v.valueAttr == "url"))

/-- Node 1, `route_input`: in URL mode the update is
`{"input_mode": "url"}`; otherwise `{"input_mode": "text",
"fetched_text": state.get("input_text", "")}` (the `input_text` key is
always present in a pipeline run, so the `""` default never fires). -/
def route_input (s : GraphState) : GraphState :=
  if isUrlMode s.input_mode then
    { s with input_mode := .str "url" }
  else
    { s with input_mode := .str "text", fetched_text := s.input_text }

/-- The conditional-edge router after `route`: `"fetch"` or `"clean"`. -/
def should_fetch (s : GraphState) : String :=
  if isUrlMode s.input_mode then "fetch" else "clean"

/-- The conditional-edge router after `fetch`: `"error"` iff
`state.get("fetch_error")` is truthy (a `FetchError` object). -/
def check_fetch_error (s : GraphState) : String :=
  if s.fetch_error.isSome then "error" else "continue"

/-- `not extracted or len(extracted.strip()) < 100`: the insufficiency
test applied to each trafilatura extraction result. -/
def insufficientExtract : Option String → Bool
  | none => true
  | some t => t == "" || pyLen (pyStrip t) < 100

/-- Node 2, `fetch_url`: require a truthy URL, perform the GET, classify
401/403, 429, other `>= 400` (`raise_for_status` → `HTTPStatusError`),
timeouts and other exceptions as recoverable `fetch_error`s; on success
run the recall-biased extraction pass, retry once with the
formatting-preserving profile when insufficient, and fail with the
"could not extract enough text" error when both passes are
insufficient. -/
def fetch_url (caps : Caps) (s : GraphState) : GraphState :=
  if otruthy s.input_url = false then
    { s with fetch_error := some { message := "No URL provided" } }
  else
    match caps.http (s.input_url.getD "") with
    | .timeout =>
        { s with fetch_error := some {
            message := "Request timed out. Try pasting the job text instead."
            recoverable := true } }
    | .exn m =>
        { s with fetch_error := some {
            message := "Failed to fetch URL: " ++ m, recoverable := true } }
    | .ok status body =>
        if status = 401 ∨ status = 403 then
          { s with fetch_error := some {
              code := some status
              message := "Access denied (" ++ toString status ++
                "). Try pasting the job text instead."
              recoverable := true } }
        else if status = 429 then
          { s with fetch_error := some {
              code := some 429
              message := "Rate limited. Please try again later or paste the job text."
              recoverable := true } }
        else if 400 ≤ status then
          { s with fetch_error := some {
              code := some status
              message := "HTTP error " ++ toString status ++
                ". Try pasting the job text instead."
              recoverable := true } }
        else
          let e1 := caps.extractRecall body
          if insufficientExtract e1 then
            let e2 := caps.extractFallback body
            if insufficientExtract e2 then
              { s with fetch_error := some {
                  message := "Could not extract enough text from page. The page may require JavaScript or login. Try pasting the job text instead."
                  recoverable := true } }
            else { s with fetched_text := e2, fetch_error := none }
          else { s with fetched_text := e1, fetch_error := none }

/-- `re.sub(r"\n{3,}", "\n\n", ·)`: collapse runs of three or more
newlines to exactly two.  `out` is the reversed output, `run` counts the
pending newline run. -/
def collapseNlGo : List Char → List Char → Nat → List Char
  | [], out, run => List.replicate (if 3 ≤ run then 2 else run) '\n' ++ out
  | c :: cs, out, run =>
      if c = '\n' then collapseNlGo cs out (run + 1)
      else collapseNlGo cs (c :: (List.replicate (if 3 ≤ run then 2 else run) '\n' ++ out)) 0

/-- `re.sub(r"[ \t]+", " ", ·)`: collapse runs of spaces and tabs to a
single space. -/
def collapseWsGo : List Char → List Char → Bool → List Char
  | [], out, inRun => if inRun then ' ' :: out else out
  | c :: cs, out, inRun =>
      if c = ' ' ∨ c = '\t' then collapseWsGo cs out true
      else collapseWsGo cs (c :: (if inRun then ' ' :: out else out)) false

/-- `re.sub(r" +\n", "\n", ·)`: drop runs of spaces that immediately
precede a newline. -/
def dropSpNlGo : List Char → List Char → Nat → List Char
  | [], out, pend => List.replicate pend ' ' ++ out
  | c :: cs, out, pend =>
      if c = ' ' then dropSpNlGo cs out (pend + 1)
      else if c = '\n' then dropSpNlGo cs ('\n' :: out) 0
      else dropSpNlGo cs (c :: (List.replicate pend ' ' ++ out)) 0

/-- Case-insensitive literal prefix test (`p` is already lowercase). -/
def lowerPrefixMatch : List Char → List Char → Bool
  | [], _ => true
  | _ :: _, [] => false
  | p :: ps, c :: cs => p = asciiLowerChar c && lowerPrefixMatch ps cs

/-- `re.sub(pat + r".*?(?=\n|$)", "", ·, flags=re.IGNORECASE)` for a
literal pattern: each case-insensitive occurrence is removed together
with the rest of its line (`.` does not cross newlines, so the
non-greedy run extends to the next newline or the end).  `fuel` bounds
the recursion; it starts above the list length, which suffices because
every step either consumes a character or removes a non-empty match. -/
def removeNoiseGo (p : List Char) : Nat → List Char → List Char
  | 0, cs => cs
  | _ + 1, [] => []
  | fuel + 1, c :: cs =>
      if lowerPrefixMatch p (c :: cs) then
        removeNoiseGo p fuel ((c :: cs).dropWhile (fun ch => ch ≠ '\n'))
      else c :: removeNoiseGo p fuel cs

/-- Remove every occurrence of the boilerplate pattern `p` (given
lowercase) together with the rest of its line. -/
def removeNoise (p : String) (cs : List Char) : List Char :=
  removeNoiseGo p.data (cs.length + 1) cs

/-- The fixed truncation marker appended by `clean_text`. -/
def truncMarker : String := "\n\n[Text truncated...]"

/-- The truncation step of `clean_text`:
`if len(text) > 8000: text = text[:8000] + "\n\n[Text truncated...]"`. -/
def truncateStep (t : String) : String :=
  if 8000 < pyLen t then pySlice t 8000 ++ truncMarker else t

/-- The transformation chain of `clean_text` on the selected text:
NFKC normalization, the three whitespace rewrites, the three boilerplate
removals, truncation, and the final `strip()`. -/
def cleanTransform (caps : Caps) (t : String) : String :=
  let t1 := caps.nfkc t
  let t2 : String := ⟨collapseNlGo t1.data [] 0 |>.reverse⟩
  let t3 : String := ⟨collapseWsGo t2.data [] false |>.reverse⟩
  let t4 : String := ⟨dropSpNlGo t3.data [] 0 |>.reverse⟩
  let t5 : String := ⟨removeNoise "share this job" t4.data⟩
  let t6 : String := ⟨removeNoise "apply now" t5.data⟩
  let t7 : String := ⟨removeNoise "similar jobs" t6.data⟩
  pyStrip (truncateStep t7)

/-- Node 3, `clean_text`: select `fetched_text or input_text`; if the
selection is falsy return `{"error": "No text to process"}`, otherwise
return `{"cleaned_text": <transformed text>}`. -/
def clean_text (caps : Caps) (s : GraphState) : GraphState :=
  let text : Option String := if otruthy s.fetched_text then s.fetched_text else s.input_text
  if otruthy text = false then
    { s with error := some "No text to process" }
  else
    { s with cleaned_text := some (cleanTransform caps (text.getD "")) }

/-- Node 4, `llm_extract`: require a non-empty cleaned text and a truthy
`OPENAI_API_KEY`; invoke structured inference once; on success, if a
truthy `input_url` was supplied and the result is non-`None`, overwrite
the record's `url` with it; store the (possibly `None`) result under
`extracted`. -/
def llm_extract (caps : Caps) (s : GraphState) : GraphState :=
  let text := s.cleaned_text.getD ""
  if text = "" then
    { s with error := some "No cleaned text to extract from" }
  else if otruthy caps.apiKey = false then
    { s with error := some "OPENAI_API_KEY not set in environment" }
  else
    match caps.infer text with
    | .error m => { s with error := some ("LLM extraction failed: " ++ m) }
    | .ok r =>
        let r2 := if otruthy s.input_url && r.isSome then
            r.map (fun j => { j with url := s.input_url }) else r
        { s with extracted := r2 }

/-- Node 5, `normalize_validate`: absent record is an error; otherwise
default falsy company/title/description, then `strip()` company and
title, and coerce a truthy non-list `requirements` into
`[str(requirements)]`. -/
def normalize_validate (s : GraphState) : GraphState :=
  match s.extracted with
  | none => { s with error := some "No extracted data to validate" }
  | some e =>
      let c1 := if e.company = "" then "Unknown Company" else e.company
      let t1 := if e.title = "" then "Unknown Position" else e.title
      let d1 := if e.description = "" then "No description available" else e.description
      let reqs := if e.requirements.truthy && e.requirements.isList = false then
          ReqVal.list [e.requirements.pyStr] else e.requirements
      { s with extracted := some {
          e with company := pyStrip c1, title := pyStrip t1,
                   description := d1, requirements := reqs } }

/-- The fingerprint computed by `dedupe_check`: company and title are
lowercased and stripped, `job_id` (if truthy, else `url` if truthy) adds
a third component, the components are joined with `"|"`, and the
fingerprint is the first 32 hex characters of the SHA-256 digest. -/
def fingerprintOf (e : JobApplication) : String :=
  let base := [pyStrip (asciiLower e.company), pyStrip (asciiLower e.title)]
  let comps :=
    if otruthy e.job_id then base ++ [pyStrip (asciiLower (e.job_id.getD ""))]
    else if otruthy e.url then base ++ [pyStrip (asciiLower (e.url.getD ""))]
    else base
  pySlice (sha256hex (pyJoin "|" comps)) 32

/-- Node 6, `dedupe_check`: absent record is an error; otherwise compute
the fingerprint, look it up in the user-scoped store when
`state.get("user_id")` is truthy, and set `fingerprint`, `is_duplicate`
and `existing_id`. -/
def dedupe_check (caps : Caps) (s : GraphState) : GraphState :=
  match s.extracted with
  | none => { s with error := some "No data to check for duplicates" }
  | some e =>
      let fp := fingerprintOf e
      let existing : Option Int :=
        if otruthy s.user_id then caps.checkFingerprint (s.user_id.getD "") fp else none
      { s with fingerprint := some fp, is_duplicate := existing.isSome,
               existing_id := existing }

/-!
## Orchestrator (`backend/pipeline.py`)

`build_extraction_graph` wires `route` through a conditional edge to
`fetch` or `clean`, `fetch` through a conditional edge to `END` or
`clean`, and then runs `clean → extract → normalize → dedupe → END`
linearly.  `runGraph` executes that wiring and also returns the list of
node names that executed, in order.
-/

/-- The linear tail `clean → extract → normalize → dedupe`. -/
def runTail (caps : Caps) (s : GraphState) : GraphState :=
  dedupe_check caps (normalize_validate (llm_extract caps (clean_text caps s)))

/-- Execute the compiled graph from a state, returning the terminal
state and the executed node names in order. -/
def runGraph (caps : Caps) (s : GraphState) : GraphState × List String :=
  let s1 := route_input s
  if should_fetch s1 = "fetch" then
    let s2 := fetch_url caps s1
    if check_fetch_error s2 = "error" then (s2, ["route", "fetch"])
    else (runTail caps s2, ["route", "fetch", "clean", "extract", "normalize", "dedupe"])
  else (runTail caps s1, ["route", "clean", "extract", "normalize", "dedupe"])

/-- The `initial_state` dict built by `run_extraction`: every channel
explicitly `None`/`False` apart from the three inputs. -/
def initialState (mode : ModeVal) (input_url input_text : Option String) : GraphState :=
  { input_mode := mode
    input_url := input_url
    input_text := input_text
    user_id := none
    fetched_text := none
    cleaned_text := none
    fetch_error := none
    extracted := none
    fingerprint := none
    is_duplicate := false
    existing_id := none
    error := none }

/-- `run_extraction(input_mode, input_url, input_text)`: convert the
mode to its string value (`input_mode.value if hasattr(...) else
str(input_mode)`), build the initial state — note that no `user_id` is
accepted or seeded, so the state's `user_id` is `none` in every run —
and invoke the graph. -/
def run_extraction (caps : Caps) (input_mode : ModeVal)
    (input_url : Option String := none) (input_text : Option String := none) :
    GraphState × List String :=
  let mode_str := if input_mode.hasValueAttr then input_mode.valueAttr else input_mode.pyStr
  runGraph caps (initialState (.str mode_str) input_url input_text)

/-!
## Sanity lemmas

FIPS 180-4 test vectors pin the SHA-256 implementation (the empty
message, `"abc"`, and a message whose padding spills into a second
block), and small lemmas record shapes used by the claim theorems.
-/

theorem sha256hex_vector_empty :
    sha256hex "" = "e3b0c44298fc1c149afbf4c8996fb92427ae41e4649b934ca495991b7852b855" := by
  decide

theorem sha256hex_vector_abc :
    sha256hex "abc" = "ba7816bf8f01cfea414140de5dae2223b00361a396177a9cb410ff61f20015ad" := by
  decide

theorem sha256hex_vector_two_blocks :
    sha256hex (String.mk (List.replicate 56 'a')) =
      "b35439a4ac6f0948b6d6f9e3c6af0f5f590ce20f1bde7090ef7970686ec6738a" := by
  decide

theorem natToHex_length (d : Nat) : ∀ n : Nat, (natToHex d n).length = d := by
  induction d with
  | zero => intro n; rfl
  | succ d ih => intro n; simp [natToHex, ih]

theorem sha256hex_length (s : String) : (sha256hex s).length = 64 := by
  show (sha256hex s).data.length = 64
  unfold sha256hex sha256hexBytes
  simp [List.length_append, natToHex_length]

/-- Every fingerprint `dedupe_check` produces has exactly 32 characters. -/
theorem fingerprintOf_length (e : JobApplication) : pyLen (fingerprintOf e) = 32 := by
  unfold fingerprintOf pyLen pySlice
  split <;> simp [List.length_take, sha256hex_length]

theorem clean_text_keeps_fetched (caps : Caps) (s : GraphState) :
    (clean_text caps s).fetched_text = s.fetched_text := by
  unfold clean_text
  dsimp only
  repeat' split
  all_goals rfl

theorem llm_extract_keeps_fetched (caps : Caps) (s : GraphState) :
    (llm_extract caps s).fetched_text = s.fetched_text := by
  unfold llm_extract
  dsimp only
  repeat' split
  all_goals rfl

theorem normalize_validate_keeps_fetched (s : GraphState) :
    (normalize_validate s).fetched_text = s.fetched_text := by
  unfold normalize_validate
  repeat' split
  all_goals rfl

theorem dedupe_check_keeps_fetched (caps : Caps) (s : GraphState) :
    (dedupe_check caps s).fetched_text = s.fetched_text := by
  unfold dedupe_check
  repeat' split
  all_goals rfl

theorem runTail_keeps_fetched (caps : Caps) (s : GraphState) :
    (runTail caps s).fetched_text = s.fetched_text := by
  unfold runTail
  rw [dedupe_check_keeps_fetched, normalize_validate_keeps_fetched,
    llm_extract_keeps_fetched, clean_text_keeps_fetched]

/-!
## Claim C4 — truncation in the Normalizer
-/

/-- C4: every text longer than 8000 characters reaching `clean_text`'s
truncation step becomes exactly its first 8000 characters followed by
the fixed truncation marker — hence exactly `8000 + len(marker)`
characters, never more — while a text of at most 8000 characters passes
the step unchanged, with no marker appended. -/
theorem truncateStep_spec (t : String) :
    (8000 < pyLen t →
      truncateStep t = pySlice t 8000 ++ truncMarker ∧
      pyLen (truncateStep t) = 8000 + pyLen truncMarker) ∧
    (pyLen t ≤ 8000 → truncateStep t = t) ∧
    pyLen (truncateStep t) ≤ 8000 + pyLen truncMarker := by
  by_cases h : 8000 < pyLen t
  · have ht : truncateStep t = pySlice t 8000 ++ truncMarker := by
      unfold truncateStep
      exact if_pos h
    have hlen : pyLen (pySlice t 8000 ++ truncMarker) = 8000 + pyLen truncMarker := by
      show (pySlice t 8000 ++ truncMarker).data.length = 8000 + pyLen truncMarker
      rw [String.data_append]
      unfold pySlice pyLen
      rw [List.length_append, List.length_take]
      unfold pyLen at h
      omega
    exact ⟨fun _ => ⟨ht, by rw [ht, hlen]⟩, fun hle => absurd h (by omega),
      by rw [ht, hlen]⟩
  · have ht : truncateStep t = t := by
      unfold truncateStep
      exact if_neg h
    exact ⟨fun hlt => absurd hlt h, fun _ => ht, by rw [ht]; omega⟩

/-- A concrete 8001-character text. -/
def longText : String := String.mk (List.replicate 8001 'a')

/-- Witness for C4: the theorem applied to an 8001-character text (the
truncation branch) and to `"short"` (the no-marker branch). -/
theorem truncateStep_spec_witness :
    (truncateStep longText = pySlice longText 8000 ++ truncMarker ∧
      pyLen (truncateStep longText) = 8000 + pyLen truncMarker) ∧
    truncateStep "short" = "short" := by
  have hlong : 8000 < pyLen longText := by
    show 8000 < (List.replicate 8001 'a').length
    rw [List.length_replicate]
    omega
  exact ⟨(truncateStep_spec longText).1 hlong,
    (truncateStep_spec "short").2.1 (by decide)⟩

/-!
## Claim C2 — fingerprint construction
-/

/-- The fingerprint as §4.6 of the design describes it, written from the
spec's words: a fingerprint-input string of the lower-cased trimmed
company, the lower-cased trimmed title, and — preferring `job_id` over
`url`, whichever is first present (Python-truthy, i.e. non-`None` and
non-empty) — a third lower-cased trimmed identity component, or none
when neither is present; components joined with the fixed delimiter
`"|"`, hashed with SHA-256, and cut to the first 32 hex characters. -/
def specFingerprint (company title : String) (job_id url : Option String) : String :=
  let lowTrim : String → String := fun x => pyStrip (asciiLower x)
  let third : List String :=
    if otruthy job_id then [lowTrim (job_id.getD "")]
    else if otruthy url then [lowTrim (url.getD "")]
    else []
  pySlice (sha256hex (pyJoin "|" ([lowTrim company, lowTrim title] ++ third))) 32

/-- C2: for every validated record reaching the Deduplicator, the
fingerprint `dedupe_check` stores is exactly the spec's fingerprint of
the record's company, title, and job_id-or-url — and it has 32
characters. -/
theorem dedupe_check_fingerprint_spec (caps : Caps) (s : GraphState)
    (e : JobApplication) (h : s.extracted = some e) :
    (dedupe_check caps s).fingerprint =
      some (specFingerprint e.company e.title e.job_id e.url) ∧
    pyLen (specFingerprint e.company e.title e.job_id e.url) = 32 := by
  have hfp : fingerprintOf e = specFingerprint e.company e.title e.job_id e.url := by
    unfold fingerprintOf specFingerprint
    by_cases hj : otruthy e.job_id
    · simp [hj]
    · by_cases hu : otruthy e.url
      · simp [hj, hu]
      · simp [hj, hu]
  constructor
  · unfold dedupe_check
    rw [h]
    simp [hfp]
  · rw [← hfp]
    exact fingerprintOf_length e

/-- A capability bundle whose external collaborators are all inert; the
store reports a hit for every lookup. -/
def capsStub : Caps :=
  { http := fun _ => HttpOutcome.exn "offline"
    extractRecall := fun _ => none
    extractFallback := fun _ => none
    nfkc := fun t => t
    apiKey := some "sk-test"
    infer := fun _ => Except.error "stub"
    checkFingerprint := fun _ _ => some 7 }

/-- The Scenario A record: what the extractor returns for the Acme text
(company and title found, no job_id, no url). -/
def acmeRecord : JobApplication :=
  { company := "Acme Corp"
    title := "Backend Engineer"
    description := "Design and operate backend services." }

/-- Witness for C2: on a state holding the Acme record, `dedupe_check`
stores the spec fingerprint, whose value is the evaluated 32-hex-char
prefix of sha256 of the joined components. -/
theorem dedupe_check_fingerprint_spec_witness :
    (dedupe_check capsStub { input_mode := ModeVal.str "text", extracted := some acmeRecord }).fingerprint =
      some (specFingerprint "Acme Corp" "Backend Engineer" none none) ∧
    specFingerprint "Acme Corp" "Backend Engineer" none none =
      "6afdc24ffaa548dedf1057e73f0b0eca" := by
  constructor
  · exact (dedupe_check_fingerprint_spec capsStub
      { input_mode := ModeVal.str "text", extracted := some acmeRecord } acmeRecord rfl).1
  · decide

/-!
## Claim C5 — fingerprint case/whitespace insensitivity
-/

/-- C5 counterexample: two validated records whose companies differ only
in whitespace — `"Acme Corp"` versus `"Acme  Corp"` (one extra internal
space) — receive different fingerprints from the Deduplicator, because
the code only lowercases and strips leading/trailing whitespace. -/
theorem dedupe_internal_whitespace_cex :
    (dedupe_check capsStub
        { input_mode := ModeVal.str "text", extracted := some acmeRecord }).fingerprint ≠
    (dedupe_check capsStub
        { input_mode := ModeVal.str "text",
          extracted := some { acmeRecord with company := "Acme  Corp" } }).fingerprint := by
  decide

/-- C5 (amended): the fingerprint is a pure function of
(company, title, job_id-or-url) insensitive to casing and to
leading/trailing whitespace: two validated records whose company, title
and selected identity component agree after lowercasing and stripping,
and whose job_id/url truthiness pattern matches, receive the identical
32-character fingerprint — under any capabilities and states.  (Internal
whitespace differences do change the fingerprint, per the
counterexample.) -/
theorem dedupe_case_trim_insensitive (caps1 caps2 : Caps) (s1 s2 : GraphState)
    (e1 e2 : JobApplication)
    (h1 : s1.extracted = some e1) (h2 : s2.extracted = some e2)
    (hc : pyStrip (asciiLower e1.company) = pyStrip (asciiLower e2.company))
    (ht : pyStrip (asciiLower e1.title) = pyStrip (asciiLower e2.title))
    (hj : otruthy e1.job_id = otruthy e2.job_id)
    (hu : otruthy e1.url = otruthy e2.url)
    (hjv : otruthy e1.job_id = true →
      pyStrip (asciiLower (e1.job_id.getD "")) = pyStrip (asciiLower (e2.job_id.getD "")))
    (huv : otruthy e1.url = true →
      pyStrip (asciiLower (e1.url.getD "")) = pyStrip (asciiLower (e2.url.getD ""))) :
    (dedupe_check caps1 s1).fingerprint = (dedupe_check caps2 s2).fingerprint ∧
    (dedupe_check caps1 s1).fingerprint = some (fingerprintOf e1) ∧
    pyLen (fingerprintOf e1) = 32 := by
  have hfp : fingerprintOf e1 = fingerprintOf e2 := by
    unfold fingerprintOf
    by_cases hjb : otruthy e1.job_id
    · simp only [hjb, ← hj, if_pos, hc, ht, hjv hjb]
    · by_cases hub : otruthy e1.url
      · simp only [hjb, ← hj, ← hu, hub, if_neg, if_pos, Bool.false_eq_true,
          not_false_eq_true, hc, ht, huv hub]
      · simp only [hjb, ← hj, ← hu, hub, if_neg, Bool.false_eq_true,
          not_false_eq_true, hc, ht]
  have hd1 : (dedupe_check caps1 s1).fingerprint = some (fingerprintOf e1) := by
    unfold dedupe_check
    rw [h1]
  have hd2 : (dedupe_check caps2 s2).fingerprint = some (fingerprintOf e2) := by
    unfold dedupe_check
    rw [h2]
  exact ⟨by rw [hd1, hd2, hfp], hd1, fingerprintOf_length e1⟩

/-- Witness for C5: the Acme record against a shouting, padded variant
(`"  ACME CORP  "` / `"BACKEND engineer"`) — the theorem yields the
identical fingerprint. -/
theorem dedupe_case_trim_insensitive_witness :
    (dedupe_check capsStub
        { input_mode := ModeVal.str "text", extracted := some acmeRecord }).fingerprint =
    (dedupe_check capsStub
        { input_mode := ModeVal.str "text",
          extracted := some { acmeRecord with
            company := "  ACME CORP  ", title := "BACKEND engineer" } }).fingerprint :=
  (dedupe_case_trim_insensitive capsStub capsStub _ _ acmeRecord
    { acmeRecord with company := "  ACME CORP  ", title := "BACKEND engineer" }
    rfl rfl (by decide) (by decide) (by decide) (by decide) (by decide) (by decide)).1

/-!
## Claim C6 — Validator defaults
-/

/-- C6 counterexample: on a record whose company is whitespace-only
(`"   "`), the Validator sets no error but outputs an *empty* company —
the whitespace-only value is truthy, so the `"Unknown Company"` default
is skipped, and the subsequent trim leaves `""`: non-emptiness of the
required field is not enforced. -/
def stBlankCompany : GraphState :=
  { input_mode := ModeVal.str "text"
    extracted := some { acmeRecord with company := "   " } }

theorem normalize_validate_blank_company_cex :
    ((normalize_validate stBlankCompany).extracted.map JobApplication.company) = some "" ∧
    (normalize_validate stBlankCompany).error = none := by
  decide

/-- C6 (amended): given any non-null extracted record the Validator
never sets an error; it applies the fallback defaults to *empty* fields
before trimming — empty company becomes `"Unknown Company"`, empty title
`"Unknown Position"`, empty description `"No description available"` —
then trims company and title (so a whitespace-only company or title ends
empty rather than defaulted, and a non-empty company is otherwise left
untouched), and coerces a truthy non-sequence requirements value into
the single-element sequence `[str(value)]` (a falsy one is left as
is). -/
theorem normalize_validate_spec (s : GraphState) (e : JobApplication)
    (h : s.extracted = some e) :
    (normalize_validate s).error = s.error ∧
    (normalize_validate s).extracted = some
      { e with
        company := pyStrip (if e.company = "" then "Unknown Company" else e.company)
        title := pyStrip (if e.title = "" then "Unknown Position" else e.title)
        description := if e.description = "" then "No description available" else e.description
        requirements := if e.requirements.truthy && e.requirements.isList = false then
          ReqVal.list [e.requirements.pyStr] else e.requirements } := by
  unfold normalize_validate
  rw [h]
  exact ⟨rfl, rfl⟩

/-- Witness for C6: a record with empty company, padded title, empty
description and a scalar requirements value; the theorem plus evaluation
gives the defaulted, trimmed, coerced record and an untouched error
channel. -/
def rawValRecord : JobApplication :=
  { company := ""
    title := "  Dev  "
    description := ""
    requirements := ReqVal.scalar "Python" }

def stRawVal : GraphState :=
  { input_mode := ModeVal.str "text", extracted := some rawValRecord }

theorem normalize_validate_spec_witness :
    (normalize_validate stRawVal).error = none ∧
    (normalize_validate stRawVal).extracted = some
      { company := "Unknown Company"
        title := "Dev"
        description := "No description available"
        requirements := ReqVal.list ["Python"] } := by
  have h := normalize_validate_spec stRawVal rawValRecord rfl
  exact ⟨h.1, h.2.trans (by decide)⟩

/-!
## More node-preservation lemmas

Each node only writes the keys of its returned update dict; these
lemmas record the channels a node leaves untouched.
-/

theorem route_input_keeps_rest (s : GraphState) :
    (route_input s).extracted = s.extracted ∧
    (route_input s).fingerprint = s.fingerprint ∧
    (route_input s).user_id = s.user_id ∧
    (route_input s).is_duplicate = s.is_duplicate ∧
    (route_input s).error = s.error := by
  unfold route_input
  split <;> exact ⟨rfl, rfl, rfl, rfl, rfl⟩

theorem fetch_url_keeps_rest (caps : Caps) (s : GraphState) :
    (fetch_url caps s).extracted = s.extracted ∧
    (fetch_url caps s).fingerprint = s.fingerprint ∧
    (fetch_url caps s).user_id = s.user_id ∧
    (fetch_url caps s).is_duplicate = s.is_duplicate ∧
    (fetch_url caps s).error = s.error := by
  unfold fetch_url
  dsimp only
  repeat' split
  all_goals exact ⟨rfl, rfl, rfl, rfl, rfl⟩

theorem clean_text_keeps_rest (caps : Caps) (s : GraphState) :
    (clean_text caps s).user_id = s.user_id ∧
    (clean_text caps s).is_duplicate = s.is_duplicate := by
  unfold clean_text
  dsimp only
  repeat' split
  all_goals exact ⟨rfl, rfl⟩

theorem llm_extract_keeps_rest (caps : Caps) (s : GraphState) :
    (llm_extract caps s).user_id = s.user_id ∧
    (llm_extract caps s).is_duplicate = s.is_duplicate := by
  unfold llm_extract
  dsimp only
  repeat' split
  all_goals exact ⟨rfl, rfl⟩

theorem normalize_validate_keeps_rest (s : GraphState) :
    (normalize_validate s).user_id = s.user_id ∧
    (normalize_validate s).is_duplicate = s.is_duplicate := by
  unfold normalize_validate
  repeat' split
  all_goals exact ⟨rfl, rfl⟩

theorem dedupe_check_keeps_user (caps : Caps) (s : GraphState) :
    (dedupe_check caps s).user_id = s.user_id := by
  unfold dedupe_check
  repeat' split
  all_goals rfl

/-- Without a truthy `user_id` in the state, `dedupe_check` never reports
a duplicate (the store is not consulted). -/
theorem dedupe_check_no_user_no_dup (caps : Caps) (s : GraphState)
    (hu : s.user_id = none) (hd : s.is_duplicate = false) :
    (dedupe_check caps s).is_duplicate = false := by
  unfold dedupe_check
  split
  · exact hd
  · simp [hu, otruthy]

theorem runTail_keeps_user (caps : Caps) (s : GraphState) :
    (runTail caps s).user_id = s.user_id := by
  unfold runTail
  rw [dedupe_check_keeps_user, (normalize_validate_keeps_rest _).1,
    (llm_extract_keeps_rest _ _).1, (clean_text_keeps_rest _ _).1]

theorem runTail_no_user_no_dup (caps : Caps) (s : GraphState)
    (hu : s.user_id = none) (hd : s.is_duplicate = false) :
    (runTail caps s).is_duplicate = false := by
  unfold runTail
  apply dedupe_check_no_user_no_dup
  · rw [(normalize_validate_keeps_rest _).1, (llm_extract_keeps_rest _ _).1,
      (clean_text_keeps_rest _ _).1, hu]
  · rw [(normalize_validate_keeps_rest _).2, (llm_extract_keeps_rest _ _).2,
      (clean_text_keeps_rest _ _).2, hd]

/-- From a state with no `user_id` and a clear duplicate flag, every
path through the graph ends with no `user_id` and `is_duplicate =
false`. -/
theorem runGraph_no_identity (caps : Caps) (s : GraphState)
    (hu : s.user_id = none) (hd : s.is_duplicate = false) :
    (runGraph caps s).1.user_id = none ∧ (runGraph caps s).1.is_duplicate = false := by
  unfold runGraph
  dsimp only
  split
  · split
    · dsimp only
      constructor
      · rw [(fetch_url_keeps_rest _ _).2.2.1, (route_input_keeps_rest _).2.2.1, hu]
      · rw [(fetch_url_keeps_rest _ _).2.2.2.1, (route_input_keeps_rest _).2.2.2.1, hd]
    · dsimp only
      constructor
      · rw [runTail_keeps_user, (fetch_url_keeps_rest _ _).2.2.1,
          (route_input_keeps_rest _).2.2.1, hu]
      · apply runTail_no_user_no_dup
        · rw [(fetch_url_keeps_rest _ _).2.2.1, (route_input_keeps_rest _).2.2.1, hu]
        · rw [(fetch_url_keeps_rest _ _).2.2.2.1, (route_input_keeps_rest _).2.2.2.1, hd]
  · dsimp only
    constructor
    · rw [runTail_keeps_user, (route_input_keeps_rest _).2.2.1, hu]
    · apply runTail_no_user_no_dup
      · rw [(route_input_keeps_rest _).2.2.1, hu]
      · rw [(route_input_keeps_rest _).2.2.2.1, hd]

/-!
## Claim C1 — entry point, Scenario A, and the missing caller identity
-/

/-- The Scenario A input text (215 characters, names `Acme Corp` and
`Backend Engineer`, contains no job id and no URL). -/
def acmeText : String :=
  "Acme Corp is hiring a Backend Engineer to join our growing platform team. You will design, build and operate the APIs and data services that power our products, collaborating closely with product and infrastructure."

/-- Capabilities for Scenario A: the extractor returns the Acme record,
and the fingerprint store already holds every fingerprint for every
user (as after an identical first run for any identity) — a second run
would have to report a duplicate if the store were ever consulted. -/
def capsAcme : Caps :=
  { capsStub with infer := fun _ => Except.ok (some acmeRecord) }

/-- C1: `run_extraction` accepts no caller identity, so `user_id` is
`none` in the terminal state of every invocation and `is_duplicate` is
`false` in every invocation — under any capabilities, mode and inputs.
In Scenario A the fingerprint is the first 32 hex characters of
sha256 of the string formed from the lower-cased company and title —
but even against a store that holds that fingerprint for every user
(an identical second run for the same identity), the terminal state
still has `is_duplicate = false` and `existing_id = none`: the
identity-scoped duplicate check can never fire. -/
theorem run_extraction_never_flags_duplicates :
    (∀ (caps : Caps) (m : ModeVal) (u t : Option String),
      (run_extraction caps m u t).1.user_id = none ∧
      (run_extraction caps m u t).1.is_duplicate = false) ∧
    ((run_extraction capsAcme (ModeVal.enum InputMode.text) none (some acmeText)).1.fingerprint =
        some (pySlice (sha256hex "acme corp|backend engineer") 32) ∧
      (run_extraction capsAcme (ModeVal.enum InputMode.text) none (some acmeText)).1.is_duplicate = false ∧
      (run_extraction capsAcme (ModeVal.enum InputMode.text) none (some acmeText)).1.existing_id = none) := by
  constructor
  · intro caps m u t
    exact runGraph_no_identity caps
      (initialState (ModeVal.str (if m.hasValueAttr then m.valueAttr else m.pyStr)) u t)
      rfl rfl
  · decide

/-!
## Claim C3 — fetch errors terminate the run
-/

/-- Every `FetchError` that `fetch_url` can produce carries
`recoverable = true` (explicitly, or via the pydantic default). -/
theorem fetch_url_recoverable (caps : Caps) (s : GraphState) (e : FetchError)
    (h : (fetch_url caps s).fetch_error = some e) : e.recoverable = true := by
  unfold fetch_url at h
  dsimp only at h
  repeat' split at h
  all_goals simp_all
  all_goals (cases h; rfl)

/-- When routing selects the fetch branch and the Fetcher's output
carries a `fetch_error`, the graph ends right there. -/
theorem runGraph_stops_on_fetch_error (caps : Caps) (s : GraphState)
    (hf : should_fetch (route_input s) = "fetch")
    (he : (fetch_url caps (route_input s)).fetch_error.isSome = true) :
    runGraph caps s = (fetch_url caps (route_input s), ["route", "fetch"]) := by
  have hcf : check_fetch_error (fetch_url caps (route_input s)) = "error" := by
    unfold check_fetch_error
    rw [he]
    rfl
  unfold runGraph
  dsimp only
  rw [if_pos hf, if_pos hcf]

/-- C3: whenever the Fetcher sets `fetch_error` in a URL-mode run, the
run terminates at that node — the trace is exactly
`["route", "fetch"]`, so the Normalizer, Extractor, Validator and
Deduplicator never execute — with `fetch_error.recoverable = true` and
`extracted` and `fingerprint` still unset.  In particular an HTTP 401,
403 or 429 response sets such a `fetch_error`. -/
theorem fetch_error_halts_run (caps : Caps) (url text : Option String) (e : FetchError)
    (h : (fetch_url caps (route_input (initialState (ModeVal.str "url") url text))).fetch_error =
      some e) :
    (run_extraction caps (ModeVal.enum InputMode.url) url text).1.fetch_error = some e ∧
    e.recoverable = true ∧
    (run_extraction caps (ModeVal.enum InputMode.url) url text).1.extracted = none ∧
    (run_extraction caps (ModeVal.enum InputMode.url) url text).1.fingerprint = none ∧
    (run_extraction caps (ModeVal.enum InputMode.url) url text).2 = ["route", "fetch"] := by
  have hre : run_extraction caps (ModeVal.enum InputMode.url) url text =
      runGraph caps (initialState (ModeVal.str "url") url text) := rfl
  have hpair := runGraph_stops_on_fetch_error caps
    (initialState (ModeVal.str "url") url text) rfl (by rw [h]; rfl)
  rw [hre, hpair]
  refine ⟨h, fetch_url_recoverable caps _ e h, ?_, ?_, rfl⟩
  · rw [(fetch_url_keeps_rest _ _).1, (route_input_keeps_rest _).1]
    rfl
  · rw [(fetch_url_keeps_rest _ _).2.1, (route_input_keeps_rest _).2.1]
    rfl

/-- Capabilities whose HTTP fetch always answers 403. -/
def caps403 : Caps := { capsAcme with http := fun _ => HttpOutcome.ok 403 "denied" }

/-- Witness for C3: a URL-mode run against an HTTP 403 responder ends at
the Fetcher with the access-denied recoverable error and nothing
extracted. -/
theorem fetch_error_halts_run_witness :
    (run_extraction caps403 (ModeVal.enum InputMode.url)
        (some "https://jobs.example/p/1") (some "ignored")).1.fetch_error = some
      { code := some 403
        message := "Access denied (403). Try pasting the job text instead."
        recoverable := true } ∧
    (run_extraction caps403 (ModeVal.enum InputMode.url)
        (some "https://jobs.example/p/1") (some "ignored")).1.extracted = none ∧
    (run_extraction caps403 (ModeVal.enum InputMode.url)
        (some "https://jobs.example/p/1") (some "ignored")).2 = ["route", "fetch"] := by
  have h := fetch_error_halts_run caps403 (some "https://jobs.example/p/1") (some "ignored")
    { code := some 403
      message := "Access denied (403). Try pasting the job text instead."
      recoverable := true } (by decide)
  exact ⟨h.1, h.2.2.1, h.2.2.2.2⟩

/-!
## Claim C7 — direct-text mode
-/

/-- C7: in TEXT mode, for every input text, the Router sets
`fetched_text` to exactly the raw input text, the terminal state still
carries it unmodified, the executed nodes are
`route → clean → extract → normalize → dedupe` (the Fetcher never runs),
and the terminal state is unchanged under arbitrary replacement of the
HTTP-fetch and HTML-extraction capabilities — no fetch capability is
ever invoked. -/
theorem text_mode_direct (caps : Caps) (f : String → HttpOutcome)
    (g1 g2 : String → Option String) (t : String) :
    (route_input (initialState (ModeVal.str "text") none (some t))).fetched_text = some t ∧
    (run_extraction caps (ModeVal.enum InputMode.text) none (some t)).1.fetched_text = some t ∧
    (run_extraction caps (ModeVal.enum InputMode.text) none (some t)).2 =
      ["route", "clean", "extract", "normalize", "dedupe"] ∧
    run_extraction caps (ModeVal.enum InputMode.text) none (some t) =
      run_extraction { caps with http := f, extractRecall := g1, extractFallback := g2 }
        (ModeVal.enum InputMode.text) none (some t) := by
  refine ⟨rfl, ?_, rfl, rfl⟩
  have hre : (run_extraction caps (ModeVal.enum InputMode.text) none (some t)).1 =
      runTail caps (route_input (initialState (ModeVal.str "text") none (some t))) := rfl
  rw [hre, runTail_keeps_fetched]
  rfl

/-!
## Claim C9 — Normalizer input selection
-/

/-- C9: `clean_text` operates on the first Python-truthy of
`fetched_text` and the raw input text.  Starting from a state with no
prior error, it sets exactly the error `"No text to process"` — and
produces no `cleaned_text` — when both are empty or absent, and sets no
error otherwise, producing the cleaned transform of the selected
text. -/
theorem clean_text_selection (caps : Caps) (s : GraphState) (h : s.error = none) :
    ((otruthy s.fetched_text = false ∧ otruthy s.input_text = false) →
      (clean_text caps s).error = some "No text to process" ∧
      (clean_text caps s).cleaned_text = s.cleaned_text) ∧
    (otruthy s.fetched_text = true →
      (clean_text caps s).error = none ∧
      (clean_text caps s).cleaned_text =
        some (cleanTransform caps (s.fetched_text.getD ""))) ∧
    ((otruthy s.fetched_text = false ∧ otruthy s.input_text = true) →
      (clean_text caps s).error = none ∧
      (clean_text caps s).cleaned_text =
        some (cleanTransform caps (s.input_text.getD ""))) := by
  by_cases hf : otruthy s.fetched_text = true
  · have hct : clean_text caps s =
        { s with cleaned_text := some (cleanTransform caps (s.fetched_text.getD "")) } := by
      unfold clean_text
      dsimp only
      rw [if_pos hf, if_neg (by rw [hf]; decide)]
    exact ⟨fun hb => absurd hf (by rw [hb.1]; decide),
      fun _ => ⟨by rw [hct]; exact h, by rw [hct]⟩,
      fun hb => absurd hf (by rw [hb.1]; decide)⟩
  · have hfn : otruthy s.fetched_text = false := by
      cases hx : otruthy s.fetched_text
      · rfl
      · exact absurd hx hf
    by_cases hi : otruthy s.input_text = true
    · have hct : clean_text caps s =
          { s with cleaned_text := some (cleanTransform caps (s.input_text.getD "")) } := by
        unfold clean_text
        dsimp only
        rw [if_neg hf]
        have h2 : ¬ (otruthy s.input_text = false) := by
          rw [hi]
          decide
        rw [if_neg h2]
      exact ⟨fun hb => absurd hi (by rw [hb.2]; decide),
        fun hfa => absurd hfa hf,
        fun _ => ⟨by rw [hct]; exact h, by rw [hct]⟩⟩
    · have hin : otruthy s.input_text = false := by
        cases hx : otruthy s.input_text
        · rfl
        · exact absurd hx hi
      have hct : clean_text caps s = { s with error := some "No text to process" } := by
        unfold clean_text
        dsimp only
        rw [if_neg hf]
        rw [if_pos hin]
      exact ⟨fun _ => ⟨by rw [hct], by rw [hct]⟩,
        fun hfa => absurd hfa hf,
        fun hb => absurd hb.2 (by rw [hin]; decide)⟩

/-- A state as mid-run after a successful fetch. -/
def stFetched : GraphState :=
  { input_mode := ModeVal.str "url", fetched_text := some "Great job posting text" }

/-- Witness for C9: with both texts absent the Normalizer errors with
the exact message; with a fetched text present it sets no error and
cleans that text. -/
theorem clean_text_selection_witness :
    (clean_text capsStub (initialState (ModeVal.str "text") none none)).error =
      some "No text to process" ∧
    (clean_text capsStub stFetched).error = none ∧
    (clean_text capsStub stFetched).cleaned_text =
      some (cleanTransform capsStub "Great job posting text") := by
  have h1 := (clean_text_selection capsStub
    (initialState (ModeVal.str "text") none none) rfl).1 ⟨rfl, rfl⟩
  have h2 := (clean_text_selection capsStub stFetched rfl).2.1 (by decide)
  exact ⟨h1.1, h2.1, h2.2⟩

/-!
## Claim C10 — malformed input modes route to the text branch
-/

/-- The mode values the routing disjunction recognizes as URL mode, as
the claim characterizes them: the URL enum tag, or a string whose
lower-cased form is `"url"`. -/
def recognizedUrlMode : ModeVal → Bool
  | ModeVal.enum InputMode.url => true
  | ModeVal.str s => asciiLower s == "url"
  | _ => false

/-- C10: every `input_mode` value that is not recognized as URL mode —
not the URL tag and not a string lower-casing to `"url"` — is silently
routed to the direct-text branch: the Router normalizes the mode to the
string `"text"`, seeds `fetched_text` from `input_text`, the conditional
edge selects `"clean"`, and no mode value ever sets the error channel at
the routing stage (`route_input` leaves `error` untouched for every
state). -/
theorem route_unrecognized_mode (s : GraphState)
    (h : recognizedUrlMode s.input_mode = false) :
    route_input s = { s with input_mode := ModeVal.str "text", fetched_text := s.input_text } ∧
    should_fetch (route_input s) = "clean" ∧
    ∀ s2 : GraphState, (route_input s2).error = s2.error := by
  have hmode : isUrlMode s.input_mode = false := by
    rcases hv : s.input_mode with m | t | _
    · cases m
      · rw [hv] at h
        exact absurd h (by decide)
      · decide
    · rw [hv] at h
      unfold recognizedUrlMode at h
      dsimp only at h
      by_cases ht : t = "url"
      · rw [ht] at h
        exact absurd h (by decide)
      · have hlow : ¬ (asciiLower t = "url") := by
          intro he
          rw [he] at h
          exact absurd h (by decide)
        unfold isUrlMode ModeVal.eqUrlMember ModeVal.eqUrlString ModeVal.pyStr
          ModeVal.hasValueAttr
        simp [ht, hlow]
    · decide
  have hroute : route_input s =
      { s with input_mode := ModeVal.str "text", fetched_text := s.input_text } := by
    unfold route_input
    rw [if_neg (by rw [hmode]; decide)]
  refine ⟨hroute, ?_, fun s2 => (route_input_keeps_rest s2).2.2.2.2⟩
  rw [hroute]
  rfl

/-- Witness for C10: the malformed mode values `None` and `"URLS"` are
routed to the text branch without error. -/
theorem route_unrecognized_mode_witness :
    route_input (initialState ModeVal.noneV none (some "body")) =
      { initialState ModeVal.noneV none (some "body") with
        input_mode := ModeVal.str "text", fetched_text := some "body" } ∧
    should_fetch (route_input (initialState (ModeVal.str "URLS") none (some "body"))) =
      "clean" := by
  have h1 := route_unrecognized_mode (initialState ModeVal.noneV none (some "body")) (by decide)
  have h2 := route_unrecognized_mode (initialState (ModeVal.str "URLS") none (some "body"))
    (by decide)
  exact ⟨h1.1, h2.2.1⟩

/-!
## Claim C8 — two-pass extraction on a successful response
-/

/-- The `fetch_error` declared when both extraction passes fall short. -/
def insufficientErr : FetchError :=
  { message := "Could not extract enough text from page. The page may require JavaScript or login. Try pasting the job text instead."
    recoverable := true }

/-- On a successful response (status < 400) with a truthy URL,
`fetch_url` reduces to the two-pass extraction decision tree. -/
theorem fetch_url_success_shape (caps : Caps) (s : GraphState) (url body : String)
    (status : Nat) (hu : s.input_url = some url) (hne : url ≠ "")
    (hh : caps.http url = HttpOutcome.ok status body) (hs : status < 400) :
    fetch_url caps s =
      (if insufficientExtract (caps.extractRecall body) = true then
        (if insufficientExtract (caps.extractFallback body) = true then
          { s with fetch_error := some insufficientErr }
        else { s with fetched_text := caps.extractFallback body, fetch_error := none })
      else { s with fetched_text := caps.extractRecall body, fetch_error := none }) := by
  have hot : otruthy (some url) = true := by
    unfold otruthy
    exact decide_eq_true hne
  unfold fetch_url
  rw [hu]
  dsimp only
  rw [if_neg (by rw [hot]; decide)]
  rw [show (some url).getD "" = url from rfl, hh]
  dsimp only
  rw [if_neg (show ¬(status = 401 ∨ status = 403) by omega)]
  rw [if_neg (show ¬(status = 429) by omega)]
  rw [if_neg (show ¬(400 ≤ status) by omega)]
  rfl

/-- C8: on a successful HTTP response, the primary (recall-biased)
extraction pass decides alone when it is sufficient — the result is its
text, no error, and the outcome does not depend on the fallback
capability at all; the fallback pass's text is used exactly when the
primary is insufficient and the fallback sufficient; and the run ends in
the "could not extract enough text" `fetch_error` precisely when both
passes return an absent or under-threshold text (threshold: 100
characters after stripping). -/
theorem fetch_two_pass (caps : Caps) (s : GraphState) (url body : String)
    (status : Nat) (hu : s.input_url = some url) (hne : url ≠ "")
    (hh : caps.http url = HttpOutcome.ok status body) (hs : status < 400) :
    (insufficientExtract (caps.extractRecall body) = false →
      fetch_url caps s =
        { s with fetched_text := caps.extractRecall body, fetch_error := none } ∧
      ∀ g : String → Option String,
        fetch_url { caps with extractFallback := g } s = fetch_url caps s) ∧
    ((insufficientExtract (caps.extractRecall body) = true ∧
      insufficientExtract (caps.extractFallback body) = false) →
      fetch_url caps s =
        { s with fetched_text := caps.extractFallback body, fetch_error := none }) ∧
    ((fetch_url caps s).fetch_error = some insufficientErr ↔
      (insufficientExtract (caps.extractRecall body) = true ∧
       insufficientExtract (caps.extractFallback body) = true)) := by
  have hbase := fetch_url_success_shape caps s url body status hu hne hh hs
  refine ⟨fun hno => ⟨?_, fun g => ?_⟩, fun hyes => ?_, ?_⟩
  · rw [hbase]
    rw [if_neg (by rw [hno]; decide)]
  · have hno2 : insufficientExtract (({ caps with extractFallback := g } : Caps).extractRecall body) = false := hno
    have hbase2 := fetch_url_success_shape { caps with extractFallback := g } s url body
      status hu hne hh hs
    rw [hbase, hbase2]
    rw [if_neg (by rw [hno]; decide), if_neg (by rw [hno2]; decide)]
  · rw [hbase]
    rw [if_pos hyes.1, if_neg (by rw [hyes.2]; decide)]
  · constructor
    · intro he
      by_cases h1 : insufficientExtract (caps.extractRecall body) = true
      · by_cases h2 : insufficientExtract (caps.extractFallback body) = true
        · exact ⟨h1, h2⟩
        · rw [hbase, if_pos h1, if_neg h2] at he
          simp at he
      · rw [hbase, if_neg h1] at he
        simp at he
    · intro hb
      rw [hbase, if_pos hb.1, if_pos hb.2]

/-- A 150-character extraction result (well above the threshold). -/
def richText : String := String.mk (List.replicate 150 'x')

/-- A URL-mode state holding a URL to fetch. -/
def stUrl : GraphState :=
  { input_mode := ModeVal.str "url", input_url := some "https://jobs.example/p/2" }

/-- HTTP 200 capabilities with a sufficient primary pass. -/
def capsGood : Caps :=
  { capsStub with
    http := fun _ => HttpOutcome.ok 200 "<html>"
    extractRecall := fun _ => some richText }

/-- HTTP 200 capabilities where only the fallback pass is sufficient. -/
def capsFallback : Caps :=
  { capsStub with
    http := fun _ => HttpOutcome.ok 200 "<html>"
    extractRecall := fun _ => some "  short  "
    extractFallback := fun _ => some richText }

/-- HTTP 200 capabilities where both passes are insufficient. -/
def capsBare : Caps :=
  { capsStub with http := fun _ => HttpOutcome.ok 200 "<html>" }

/-- Witness for C8: the theorem applied under a sufficient primary pass
(primary text kept), a sufficient fallback pass only (fallback text
kept), and two insufficient passes (the fixed error). -/
theorem fetch_two_pass_witness :
    fetch_url capsGood stUrl =
      { stUrl with fetched_text := some richText, fetch_error := none } ∧
    fetch_url capsFallback stUrl =
      { stUrl with fetched_text := some richText, fetch_error := none } ∧
    (fetch_url capsBare stUrl).fetch_error = some insufficientErr := by
  have h1 := (fetch_two_pass capsGood stUrl "https://jobs.example/p/2" "<html>" 200
    rfl (by decide) rfl (by omega)).1 (by decide)
  have h2 := (fetch_two_pass capsFallback stUrl "https://jobs.example/p/2" "<html>" 200
    rfl (by decide) rfl (by omega)).2.1 ⟨by decide, by decide⟩
  have h3 := ((fetch_two_pass capsBare stUrl "https://jobs.example/p/2" "<html>" 200
    rfl (by decide) rfl (by omega)).2.2).mpr ⟨by decide, by decide⟩
  refine ⟨?_, ?_, ?_⟩
  · exact h1.1.trans rfl
  · exact h2.trans rfl
  · exact h3
